import Mathlib

/-!
Verification development for the lean-ai-gtd backend.

The Python backend is shallowly embedded: pure functions become Lean
functions, SQLAlchemy tables become lists of structures, committed
transactions become explicit states, and Python exceptions that are
caught inside a handler become `Except` / result-flag values.  Times are
modelled as integers (in day resolution where the source compares
`timedelta.days`, and as abstract instants elsewhere).
-/

namespace LeanAiGtd

/-! ## JSON values

`json.loads` on a string that starts with a brace either fails or yields
a JSON object (a Python dict).  The analysis parser only ever consumes
such substrings, so the external decoder is modelled as a function
returning an optional association list of key/value pairs.  -/

inductive Json where
  | null : Json
  | bool : Bool → Json
  | num : Int → Json
  | str : String → Json
  | arr : List Json → Json
  | obj : List (String × Json) → Json
deriving Repr, Inhabited

/-- A decoded JSON object: the association list of a Python dict. -/
abbrev JsonObj := List (String × Json)

/-- External decoder boundary standing for `json.loads` applied to a
substring that begins with a brace: `none` models `json.JSONDecodeError`. -/
abbrev JsonLoads := List Char → Option JsonObj

/-! ## AIIntelligenceService response parser
(src/backend/app/services/ai_intelligence.py) -/

/-- Required fields checked by `AIIntelligenceService._parse_ai_response`. -/
def requiredAnalysisFields : List String :=
  ["execution_strategy", "opportunities", "subtask_suggestions"]

/-- Index of the last occurrence of `c`, mirroring Python `str.rfind`
(with `none` for the `-1` result). -/
def rfindIdx (c : Char) (l : List Char) : Option Nat :=
  match l.reverse.findIdx? (fun x => x == c) with
  | none => none
  | some i => some (l.length - 1 - i)

/-- The substring `response[start_idx:end_idx]` that
`_parse_ai_response` hands to `json.loads`: from the first `\x7b` to the
last `\x7d` inclusive.  `none` corresponds to the
`start_idx == -1 or end_idx == 0` branch that raises `ValueError`. -/
def extractJsonSubstring (response : List Char) : Option (List Char) :=
  match response.findIdx? (fun x => x == '\x7b'), rfindIdx '\x7d' response with
  | some s, some e => some ((response.drop s).take (e + 1 - s))
  | some _, none => none
  | none, _ => none

/-- Python dict membership test `field in analysis_result`. -/
def JsonObj.hasField (o : JsonObj) (f : String) : Bool :=
  o.any (fun kv => kv.1 == f)

/-- The `try` body of `AIIntelligenceService._parse_ai_response`:
`.error` collects every raised `ValueError` / `json.JSONDecodeError`. -/
def parse_ai_response_core (loads : JsonLoads) (response : List Char) :
    Except String JsonObj :=
  match extractJsonSubstring response with
  | none => .error "ValueError: no JSON content in response"
  | some json_content =>
    match loads json_content with
    | none => .error "JSONDecodeError"
    | some analysis_result =>
      if requiredAnalysisFields.all (fun f => analysis_result.hasField f) then
        .ok analysis_result
      else
        .error "ValueError: missing required field"

/-- Static fallback payload of
`AIIntelligenceService._get_fallback_response`. -/
def get_fallback_response : JsonObj :=
  [ ("execution_strategy", .obj
      [ ("summary", .str "建议分阶段执行，优先解决核心问题"),
        ("key_points", .arr
          [ .str "明确当前任务的核心目标",
            .str "识别并优先解决关键瓶颈",
            .str "制定详细的执行时间表" ]),
        ("recommendations", .arr
          [ .str "建议将大任务拆分成小的可执行步骤",
            .str "定期回顾进展并调整策略" ]) ]),
    ("opportunities", .obj
      [ ("summary", .str "关注任务完成过程中的学习和拓展机会"),
        ("potential_areas", .arr
          [ .str "知识和技能的积累",
            .str "相关领域的延伸探索",
            .str "经验总结和方法论建立" ]),
        ("value_propositions", .arr
          [ .str "通过完成此任务提升相关能力",
            .str "为后续类似任务建立可复用的方法" ]) ]),
    ("subtask_suggestions", .arr
      [ .obj
        [ ("title", .str "fallback任务需求分析"),
          ("description", .str "详细分析任务要求和成功标准"),
          ("priority", .str "high"),
          ("estimated_time", .str "1-2小时"),
          ("dependencies", .arr []) ],
        .obj
        [ ("title", .str "fallback制定执行计划"),
          ("description", .str "基于需求分析制定详细的执行计划"),
          ("priority", .str "high"),
          ("estimated_time", .str "2-3小时"),
          ("dependencies", .arr [.str "任务需求分析"]) ],
        .obj
        [ ("title", .str "fallback开始核心执行"),
          ("description", .str "按照计划开始执行核心工作内容"),
          ("priority", .str "medium"),
          ("estimated_time", .str "待定"),
          ("dependencies", .arr [.str "制定执行计划"]) ] ]) ]

/-- `AIIntelligenceService._parse_ai_response`: the `except` clause
catches `json.JSONDecodeError` and `ValueError` and substitutes the
static fallback payload, so the function is total. -/
def parse_ai_response (loads : JsonLoads) (response : List Char) : JsonObj :=
  match parse_ai_response_core loads response with
  | .ok analysis_result => analysis_result
  | .error _ => get_fallback_response

/-! ## PomodoroTask model (src/backend/app/models/pomodoro_task.py)

One row of the `pomodoro_tasks` table.  `related_task_ids` stores a
JSON-encoded list of record ids and is modelled as the decoded list;
timestamps are abstract instants (`Nat`). -/

structure PomodoroTask where
  id : Nat
  user_id : Nat
  title : String
  description : String
  related_task_ids : List Nat
  priority_score : Int
  estimated_pomodoros : Nat
  order_index : Int
  status : String
  started_at : Option Nat
  completed_at : Option Nat
  pomodoros_completed : Nat
  total_focus_time : Nat
deriving Repr, DecidableEq

/-- `PomodoroTask.start_pomodoro`; `now` stands for `datetime.utcnow()`.
Returns the Python method result together with the mutated row. -/
def start_pomodoro (t : PomodoroTask) (now : Nat) : Bool × PomodoroTask :=
  if t.status = "pending" then
    (true, { t with status := "active", started_at := some now })
  else
    (false, t)

/-- `PomodoroTask.complete_pomodoro(focus_minutes)`. -/
def complete_pomodoro (t : PomodoroTask) (focus_minutes : Nat) (now : Nat) :
    Bool × PomodoroTask :=
  if t.status = "active" then
    let t1 := { t with
      pomodoros_completed := t.pomodoros_completed + 1,
      total_focus_time := t.total_focus_time + focus_minutes }
    if t1.pomodoros_completed ≥ t1.estimated_pomodoros then
      (true, { t1 with status := "completed", completed_at := some now })
    else
      (true, t1)
  else
    (false, t)

/-- `PomodoroTask.skip_task`. -/
def skip_task (t : PomodoroTask) : Bool × PomodoroTask :=
  (true, { t with status := "skipped" })

/-- `PomodoroTask.reset_task`. -/
def reset_task (t : PomodoroTask) : Bool × PomodoroTask :=
  (true, { t with
    status := "pending",
    started_at := none,
    completed_at := none,
    pomodoros_completed := 0,
    total_focus_time := 0 })

/-- `complete_pomodoro` iterated `n` times with the route default of 25
focus minutes (the state component only). -/
def completeN (n : Nat) (now : Nat) (t : PomodoroTask) : PomodoroTask :=
  (fun u => (complete_pomodoro u 25 now).2)^[n] t

/-! ## Record model (src/backend/app/models/record.py)

One row of the `records` table.  `created_at` / `updated_at` are
integers in day resolution so that the analytics comparison
`(datetime.now() - created_at).days > 7` becomes `now - created_at > 7`. -/

structure Record where
  id : Nat
  content : String
  category : String
  parent_id : Option Nat
  user_id : Option Nat
  priority : String
  progress : Int
  progress_notes : Option String
  created_at : Int
  updated_at : Int
  status : String
  task_type : String
deriving Repr, DecidableEq

/-- `Record.is_task`. -/
def Record.is_task (r : Record) : Bool :=
  r.category == "task"

/-! ## PomodoroIntelligenceService
(src/backend/app/services/pomodoro_intelligence.py)

The `pomodoro_tasks` table is a list in insertion order; a SQLAlchemy
`.first()` lookup is the first list element matching the filter. -/

/-- Replace the first element satisfying `p` by its image under `f`
(the committed effect of mutating the row returned by `.first()`). -/
def replaceFirst (p : α → Bool) (f : α → α) : List α → List α
  | [] => []
  | x :: xs => if p x then f x :: xs else x :: replaceFirst p f xs

/-- Remove the first element satisfying `p` (`db.session.delete` of the
row returned by `.first()`). -/
def removeFirst (p : α → Bool) : List α → List α
  | [] => []
  | x :: xs => if p x then xs else x :: removeFirst p xs

/-- Filter of `update_task_status` / `delete_pomodoro_task`:
`filter_by(id=task_id, user_id=user_id)`. -/
def byIdUser (task_id user_id : Nat) (t : PomodoroTask) : Bool :=
  t.id == task_id && t.user_id == user_id

/-- Filter `filter_by(user_id=user_id, status='active')`. -/
def isActiveOf (user_id : Nat) (t : PomodoroTask) : Bool :=
  t.user_id == user_id && t.status == "active"

/-- Dispatch of `PomodoroIntelligenceService.update_task_status` on the
`action` string (the route for `complete` always uses the default 25
focus minutes). -/
def applyAction (action : String) (now : Nat) (t : PomodoroTask) :
    Bool × PomodoroTask :=
  if action = "start" then start_pomodoro t now
  else if action = "complete" then complete_pomodoro t 25 now
  else if action = "skip" then skip_task t
  else if action = "reset" then reset_task t
  else (false, t)

/-- `PomodoroIntelligenceService.update_task_status`: look up the task
by id and user, apply the action to that row, and commit only on
success (on failure every action leaves the row unchanged, so the
stored table is unchanged either way). -/
def update_task_status (tasks : List PomodoroTask) (task_id user_id : Nat)
    (action : String) (now : Nat) : Bool × List PomodoroTask :=
  match tasks.find? (byIdUser task_id user_id) with
  | none => (false, tasks)
  | some t =>
    if (applyAction action now t).1 then
      (true, replaceFirst (byIdUser task_id user_id)
        (fun x => (applyAction action now x).2) tasks)
    else
      (false, tasks)

/-- `PomodoroIntelligenceService._calculate_priority_score` (a dict
lookup with default 50). -/
def calculate_priority_score (priority : String) : Int :=
  if priority = "urgent" then 90
  else if priority = "high" then 75
  else if priority = "medium" then 50
  else if priority = "low" then 25
  else 50

/-- Python `s or 'medium'` for the priority string. -/
def priorityOrMedium (s : String) : String :=
  if s = "" then "medium" else s

/-- Title truncation `record.content[:50] + ('...' if len > 50 else '')`. -/
def truncateTitle (content : String) : String :=
  if content.length > 50 then content.take 50 ++ "..." else content

/-- The `PomodoroTask(...)` constructor call of
`add_single_task_to_pomodoro` (before the `start_pomodoro` auto-start;
status defaults to `pending`). -/
def single_task_payload (user_id record_id newId : Nat) (record : Record) :
    PomodoroTask :=
  { id := newId,
    user_id := user_id,
    title := truncateTitle record.content,
    description := "基于任务: " ++ record.content ++ "\n\n优先级: "
      ++ priorityOrMedium record.priority ++ "\n任务类型: " ++ record.task_type,
    related_task_ids := [record_id],
    priority_score := calculate_priority_score record.priority,
    estimated_pomodoros := 1,
    order_index := 0,
    status := "pending",
    started_at := none,
    completed_at := none,
    pomodoros_completed := 0,
    total_focus_time := 0 }

/-- The bulk update
`filter(user_id == user_id, id != new.id).update(order_index + 1)`
applied to one row. -/
def orderBump (user_id newId : Nat) (t : PomodoroTask) : PomodoroTask :=
  if t.user_id == user_id && t.id != newId then
    { t with order_index := t.order_index + 1 }
  else t

/-- `PomodoroIntelligenceService.add_single_task_to_pomodoro`.
`newId` is the fresh autoincrement id handed out at `flush`; the result
is the success flag and the committed table. -/
def add_single_task_to_pomodoro (records : List Record)
    (tasks : List PomodoroTask) (user_id record_id : Nat)
    (newId : Nat) (now : Nat) : Bool × List PomodoroTask :=
  match records.find? (fun r => r.id == record_id && r.user_id == some user_id) with
  | none => (false, tasks)
  | some record =>
    let tasks1 := replaceFirst (isActiveOf user_id) (fun t => (skip_task t).2) tasks
    let newTask := (start_pomodoro (single_task_payload user_id record_id newId record) now).2
    (true, (tasks1 ++ [newTask]).map (orderBump user_id newId))

/-- One entry of the parsed `pomodoro_tasks` array of the AI response
(after `_parse_ai_response` validated the required fields). -/
structure PomoTaskData where
  title : String
  description : String
  related_task_ids : List Nat
  priority_score : Int
  estimated_pomodoros : Int
  ai_reasoning : String
deriving Repr, DecidableEq

/-- `PomodoroIntelligenceService._create_pomodoro_tasks`: the index
argument mirrors `enumerate(tasks_data, 1)` (entry `i` receives
`order_index = i + 1` counting from `i = 0`); ids are autoincremented
from `baseId`. -/
def create_pomodoro_tasks (user_id baseId : Nat) :
    Nat → List PomoTaskData → List PomodoroTask
  | _, [] => []
  | i, d :: ds =>
    { id := baseId + i,
      user_id := user_id,
      title := d.title,
      description := d.description,
      related_task_ids := d.related_task_ids,
      priority_score := d.priority_score,
      estimated_pomodoros := (max 1 (min 4 d.estimated_pomodoros)).toNat,
      order_index := (i : Int) + 1,
      status := "pending",
      started_at := none,
      completed_at := none,
      pomodoros_completed := 0,
      total_focus_time := 0 } :: create_pomodoro_tasks user_id baseId (i + 1) ds

/-- Stable insertion into a sorted list (for the SQL order-by model). -/
def insertSorted (le : α → α → Bool) (a : α) : List α → List α
  | [] => [a]
  | b :: bs => if le a b then a :: b :: bs else b :: insertSorted le a bs

/-- Stable insertion sort modelling a SQL `ORDER BY`. -/
def sortBy (le : α → α → Bool) : List α → List α
  | [] => []
  | a :: as => insertSorted le a (sortBy le as)

/-- Priority rank of `_get_user_top_tasks` (`db.case` with `else_=5`). -/
def priorityRank (p : String) : Nat :=
  if p = "urgent" then 1
  else if p = "high" then 2
  else if p = "medium" then 3
  else if p = "low" then 4
  else 5

/-- `PomodoroIntelligenceService._get_user_top_tasks`: the user's active
task-category records ordered by priority rank then creation time,
limited to 10 (stable sort models the SQL order-by). -/
def get_user_top_tasks (records : List Record) (user_id : Nat) : List Record :=
  (sortBy (fun a b =>
      priorityRank a.priority < priorityRank b.priority ||
        (priorityRank a.priority == priorityRank b.priority &&
          a.created_at ≤ b.created_at))
    (records.filter (fun r =>
      r.user_id == some user_id && r.status == "active" && r.category == "task"))).take 10

/-- `PomodoroTask.clear_user_tasks` (a bulk delete followed by its own
`db.session.commit()`). -/
def clear_user_tasks (tasks : List PomodoroTask) (user_id : Nat) :
    List PomodoroTask :=
  tasks.filter (fun t => t.user_id != user_id)

/-- `PomodoroIntelligenceService.generate_pomodoro_tasks`.  The AI call
and `_parse_ai_response` are summarized by `parsed` (`none` covers both
an AI failure and a parse failure).  The second component is the final
table, the third the list of tables committed by the operation in
order: `clear_user_tasks` commits the cleared table on its own before
`_create_pomodoro_tasks` commits the insertion. -/
def generate_pomodoro_tasks (records : List Record)
    (tasks : List PomodoroTask) (user_id : Nat)
    (parsed : Option (List PomoTaskData)) (baseId : Nat) :
    Bool × List PomodoroTask × List (List PomodoroTask) :=
  if (get_user_top_tasks records user_id).isEmpty then
    (false, tasks, [])
  else
    match parsed with
    | none => (false, tasks, [])
    | some ds =>
      let cleared := clear_user_tasks tasks user_id
      let finalTasks := cleared ++ create_pomodoro_tasks user_id baseId 0 ds
      (true, finalTasks, [cleared, finalTasks])

/-- Route `delete_pomodoro_task`
(src/backend/app/routes/pomodoro.py): the optional `skip_task` call
mutates the very row that is then deleted, so the committed effect is
the removal of the row. -/
def delete_pomodoro_task (tasks : List PomodoroTask)
    (task_id user_id : Nat) : Bool × List PomodoroTask :=
  match tasks.find? (byIdUser task_id user_id) with
  | none => (false, tasks)
  | some _ => (true, removeFirst (byIdUser task_id user_id) tasks)

/-! ## Exposed Focus-Task operations as one step relation -/

/-- The exposed Focus-Task operations of the pomodoro routes. -/
inductive PomOp where
  | update (task_id user_id : Nat) (action : String) (now : Nat)
  | addSingle (user_id record_id newId now : Nat)
  | generate (user_id : Nat) (parsed : Option (List PomoTaskData)) (baseId : Nat)
  | deleteTask (task_id user_id : Nat)
deriving Repr

/-- State of the `pomodoro_tasks` table after the operation. -/
def applyPomOp (records : List Record) (tasks : List PomodoroTask) :
    PomOp → List PomodoroTask
  | .update task_id user_id action now =>
    (update_task_status tasks task_id user_id action now).2
  | .addSingle user_id record_id newId now =>
    (add_single_task_to_pomodoro records tasks user_id record_id newId now).2
  | .generate user_id parsed baseId =>
    (generate_pomodoro_tasks records tasks user_id parsed baseId).2.1
  | .deleteTask task_id user_id =>
    (delete_pomodoro_task tasks task_id user_id).2

/-- Whether the operation is a `start` transition request. -/
def PomOp.isStartOp : PomOp → Bool
  | .update _ _ action _ => action == "start"
  | _ => false

/-- Number of the owner's Focus-Tasks in status `active`. -/
def countActive (tasks : List PomodoroTask) (u : Nat) : Nat :=
  tasks.countP (isActiveOf u)

/-- At most one active Focus-Task per owner. -/
def activeInvariant (tasks : List PomodoroTask) : Prop :=
  ∀ u : Nat, countActive tasks u ≤ 1

/-! ## Record routes (src/backend/app/routes/records.py)

The handlers are modelled for a fixed caller scope `user : Option Nat`:
`some uid` is a logged-in non-admin user (queries filter
`user_id = uid`), `none` the anonymous scope (queries filter
`user_id IS NULL`).  An error response leaves the table unchanged, so
handlers return the response outcome together with the committed
table. -/

/-- Whitespace test of Python `str.strip()` (restricted to the ASCII
whitespace that occurs in request payloads). -/
def isSpaceChar (c : Char) : Bool :=
  c == ' ' || c == '\t' || c == '\n' || c == '\r'

/-- Python `str.strip()`: drop whitespace from both ends. -/
def pyStrip (s : String) : String :=
  String.mk (((s.toList.dropWhile isSpaceChar).reverse.dropWhile
    isSpaceChar).reverse)

/-- Ownership filter `filter_by(id=record_id, user_id=...)` common to
the record handlers. -/
def recByIdUser (record_id : Nat) (user : Option Nat) (r : Record) : Bool :=
  r.id == record_id && r.user_id == user

/-- Categories accepted by `create_record`. -/
def validCategories : List String := ["idea", "task", "note", "general"]

/-- Statuses accepted by the `status` field of `create_record`. -/
def validCreateStatuses : List String :=
  ["pending", "active", "completed", "paused", "cancelled", "archived", "deleted"]

/-- Statuses accepted by `update_record`. -/
def validUpdateStatuses : List String :=
  ["active", "completed", "paused", "cancelled", "archived", "deleted"]

/-- Optional fields of the `create_record` request body. -/
structure CreateOpts where
  progress_notes : Option String
  priority : Option String
  status : Option String
deriving Repr, DecidableEq

/-- Route `create_record`.  `newId` stands for the generated random id
and `now` for the creation instant.  `.error` tags the error-code of
the JSON error response; `.ok` returns the committed table and the new
row. -/
def create_record (records : List Record) (newId : Nat)
    (content0 category : String) (parent_id : Option Nat)
    (user : Option Nat) (task_type0 : String) (opts : CreateOpts)
    (now : Int) : Except String (List Record × Record) :=
  if content0 = "" then .error "MISSING_REQUIRED_FIELD"
  else
    let content := pyStrip content0
    if content.length > 5000 then .error "INVALID_FIELD_VALUE"
    else if !(validCategories.contains category) then .error "INVALID_FIELD_VALUE"
    else
      let parentOk : Except String Unit :=
        match parent_id with
        | none => .ok ()
        | some pid =>
          match records.find? (fun r => r.id == pid && r.user_id == user) with
          | none => .error "RECORD_NOT_FOUND"
          | some parent_record =>
            if !parent_record.is_task then .error "RECORD_NOT_FOUND" else .ok ()
      match parentOk with
      | .error e => .error e
      | .ok _ =>
        let task_type :=
          if ["work", "hobby", "life"].contains task_type0 then task_type0 else "work"
        let record : Record :=
          { id := newId,
            content := content,
            category := category,
            parent_id := parent_id,
            user_id := user,
            priority := "medium",
            progress := 0,
            progress_notes := none,
            created_at := now,
            updated_at := now,
            status := "active",
            task_type := task_type }
        match opts.progress_notes with
        | some notes =>
          if notes.length > 10000 then .error "INVALID_FIELD_VALUE"
          else
            let record := { record with progress_notes := some notes }
            let record :=
              match opts.priority with
              | some p => if ["low", "medium", "high", "urgent"].contains p then
                  { record with priority := p } else record
              | none => record
            let record :=
              match opts.status with
              | some s => if validCreateStatuses.contains s then
                  { record with status := s } else record
              | none => record
            .ok (records ++ [record], record)
        | none =>
          let record :=
            match opts.priority with
            | some p => if ["low", "medium", "high", "urgent"].contains p then
                { record with priority := p } else record
            | none => record
          let record :=
            match opts.status with
            | some s => if validCreateStatuses.contains s then
                { record with status := s } else record
            | none => record
          .ok (records ++ [record], record)

/-- Fields of the `update_record` request body (a key that is absent is
`none`). -/
structure UpdateData where
  content : Option String
  status : Option String
  priority : Option String
  progress_notes : Option String
  progress : Option Int
  task_type : Option String
deriving Repr, DecidableEq

/-- The field-by-field mutation of `update_record` once every present
field has passed validation. -/
def applyUpdateData (d : UpdateData) (now : Int) (r : Record) : Record :=
  let r := match d.content with
    | some c => { r with content := pyStrip c }
    | none => r
  let r := match d.status with
    | some s => { r with status := s }
    | none => r
  let r := match d.priority with
    | some p => { r with priority := p }
    | none => r
  let r := match d.progress_notes with
    | some n => { r with progress_notes := some n }
    | none => r
  let r := match d.progress with
    | some p => { r with progress := p }
    | none => r
  let r := match d.task_type with
    | some t => { r with task_type := t }
    | none => r
  { r with updated_at := now }

/-- Validation of the `update_record` request body against the found
record (mirrors the sequence of `if ... in data` checks; an invalid
present field aborts with a 400 before the commit). -/
def updateDataValid (d : UpdateData) : Bool :=
  (match d.content with
    | some c => !(pyStrip c = "") && (pyStrip c).length ≤ 5000
    | none => true) &&
  (match d.status with
    | some s => validUpdateStatuses.contains s
    | none => true) &&
  (match d.priority with
    | some p => ["low", "medium", "high", "urgent"].contains p
    | none => true) &&
  (match d.progress_notes with
    | some n => n.length ≤ 10000
    | none => true) &&
  (match d.progress with
    | some p => 0 ≤ p && p ≤ 100
    | none => true) &&
  (match d.task_type with
    | some t => ["work", "hobby", "life"].contains t
    | none => true)

/-- Route `update_record`: find the record in the caller's scope,
validate the present fields, mutate them and stamp `updated_at`. -/
def update_record (records : List Record) (record_id : Nat)
    (user : Option Nat) (d : UpdateData) (now : Int) :
    Except String (List Record) :=
  match records.find? (recByIdUser record_id user) with
  | none => .error "not found"
  | some _ =>
    if updateDataValid d then
      .ok (replaceFirst (recByIdUser record_id user) (applyUpdateData d now) records)
    else
      .error "invalid field"

/-- Scope filter of `get_records` for a non-admin caller. -/
def recScope (user : Option Nat) (r : Record) : Bool :=
  r.user_id == user

/-- Route `get_records` (default listing, `include_subtasks=false`):
for an absent or `all` status parameter the query keeps every
non-deleted record of the scope, and the default excludes subtask rows
(`parent_id IS NULL`).  Pagination and ordering are presentation-only
and not modelled. -/
def get_records (records : List Record) (user : Option Nat)
    (status : Option String) : List Record :=
  let base := records.filter (recScope user)
  let byStatus : List Record :=
    match status with
    | none => base.filter (fun r => r.status != "deleted")
    | some s =>
      if s = "all" then base.filter (fun r => r.status != "deleted")
      else if s = "pending" then
        base.filter (fun r =>
          !(["completed", "cancelled", "deleted"].contains r.status))
      else base.filter (fun r => r.status == s)
  byStatus.filter (fun r => r.parent_id == none)

/-- Route `get_record` (fetch one record by identifier): no status
filter is applied, so a soft-deleted record is still returned. -/
def get_record (records : List Record) (record_id : Nat)
    (user : Option Nat) : Option Record :=
  records.find? (recByIdUser record_id user)

/-- Aggregate `subtask_count` of `Record.to_dict`: only children in
status `active` are counted. -/
def subtask_count (records : List Record) (parent : Record) : Nat :=
  records.countP (fun r => r.parent_id == some parent.id && r.status == "active")

/-- The methods defined by the `Record` model class
(src/backend/app/models/record.py); attribute lookup on a record object
falls back to this table. -/
def recordModelMethods : List String :=
  ["__init__", "to_dict", "is_task", "is_subtask", "get_parent",
   "get_subtasks", "can_have_subtasks", "add_subtask", "__repr__"]

/-- Python attribute lookup of a method: an absent name raises
`AttributeError`. -/
def callRecordMethod (name : String) : Except String Unit :=
  if recordModelMethods.contains name then .ok ()
  else .error ("AttributeError: " ++ name)

/-- Route `delete_record`.  The `hard_delete=true` branch calls
`record.hard_delete()`; the surrounding `except` catches the raised
exception, rolls the session back, and answers with a 500 error.  The
result is the response outcome together with the committed table. -/
def delete_record (records : List Record) (record_id : Nat)
    (user : Option Nat) (hard : Bool) (now : Int) :
    Except String Unit × List Record :=
  match records.find? (recByIdUser record_id user) with
  | none => (.error "not found", records)
  | some _ =>
    if hard then
      match callRecordMethod "hard_delete" with
      | .error e => (.error ("删除记录失败: " ++ e), records)
      | .ok _ => (.ok (), records)
    else
      (.ok (), replaceFirst (recByIdUser record_id user)
        (fun r => { r with status := "deleted", updated_at := now }) records)

/-! ## ProgressMonitoringService
(src/backend/app/services/progress_monitoring_service.py) -/

/-- The query of `_analyze_time_efficiency` feeding the stalled-task
scan: the owner's task records created inside the window that have
`progress > 0`. -/
def tasks_with_progress (records : List Record) (user_id : Nat)
    (startDate endDate : Int) : List Record :=
  records.filter (fun r =>
    r.user_id == some user_id && r.category == "task" &&
      startDate ≤ r.created_at && r.created_at ≤ endDate && r.progress > 0)

/-- The stalled-task list built by `_analyze_time_efficiency`: among
`tasks_with_progress`, those whose age since creation exceeds 7 days
that are still active with progress below 100. -/
def stalled_tasks (records : List Record) (user_id : Nat)
    (startDate endDate now : Int) : List Record :=
  (tasks_with_progress records user_id startDate endDate).filter (fun r =>
    now - r.created_at > 7 && r.progress < 100 && r.status == "active")

/-- Python `round` (banker's rounding: ties go to the even integer). -/
def pyRound (q : ℚ) : ℤ :=
  let f := ⌊q⌋
  let r := q - f
  if r < 1/2 then f
  else if r > 1/2 then f + 1
  else if f % 2 = 0 then f else f + 1

/-- `_calculate_efficiency_score`: total tasks created in the window. -/
def effTotal (records : List Record) (user_id : Nat) (startDate endDate : Int) : Nat :=
  records.countP (fun r =>
    r.user_id == some user_id && r.category == "task" &&
      startDate ≤ r.created_at && r.created_at ≤ endDate)

/-- `_calculate_efficiency_score`: completed tasks created in the window. -/
def effCompleted (records : List Record) (user_id : Nat) (startDate endDate : Int) : Nat :=
  records.countP (fun r =>
    r.user_id == some user_id && r.category == "task" && r.status == "completed" &&
      startDate ≤ r.created_at && r.created_at ≤ endDate)

/-- `_calculate_efficiency_score`: high-priority tasks in the window. -/
def effHighTotal (records : List Record) (user_id : Nat) (startDate endDate : Int) : Nat :=
  records.countP (fun r =>
    r.user_id == some user_id && r.category == "task" && r.priority == "high" &&
      startDate ≤ r.created_at && r.created_at ≤ endDate)

/-- `_calculate_efficiency_score`: completed high-priority tasks. -/
def effHighCompleted (records : List Record) (user_id : Nat) (startDate endDate : Int) : Nat :=
  records.countP (fun r =>
    r.user_id == some user_id && r.category == "task" && r.priority == "high" &&
      r.status == "completed" &&
      startDate ≤ r.created_at && r.created_at ≤ endDate)

/-- `_calculate_efficiency_score`: stalled-task count (note: this query
is window-independent and differs from the stalled list of
`_analyze_time_efficiency` by not requiring `progress > 0`). -/
def effStalled (records : List Record) (user_id : Nat) (now : Int) : Nat :=
  records.countP (fun r =>
    r.user_id == some user_id && r.category == "task" && r.status == "active" &&
      r.created_at < now - 7 && r.progress < 100)

/-- `ProgressMonitoringService._calculate_efficiency_score`. -/
def calculate_efficiency_score (records : List Record) (user_id : Nat)
    (startDate endDate now : Int) : ℤ :=
  let total_tasks := effTotal records user_id startDate endDate
  let completed_tasks := effCompleted records user_id startDate endDate
  let completion_score : ℚ :=
    if total_tasks > 0 then (completed_tasks : ℚ) / total_tasks * 40 else 0
  let high_priority_total := effHighTotal records user_id startDate endDate
  let high_priority_completed := effHighCompleted records user_id startDate endDate
  let priority_score : ℚ :=
    if high_priority_total > 0 then
      (high_priority_completed : ℚ) / high_priority_total * 30
    else 30
  let stalled := effStalled records user_id now
  let stalled_penalty : ℚ := min ((stalled : ℚ) * 5) 20
  let consistency_bonus : ℚ :=
    if completed_tasks > 0 ∧ total_tasks > 0 then 10 else 0
  pyRound (max 0 (min 100
    (completion_score + priority_score - stalled_penalty + consistency_bonus)))

/-! ## Concrete fixtures used by witnesses and counterexamples -/

/-- Builder for `pomodoro_tasks` rows with the fields the claims do not
inspect fixed. -/
def mkPomoTask (id user : Nat) (status : String) (order : Int)
    (est done : Nat) : PomodoroTask :=
  { id := id, user_id := user, title := "t", description := "",
    related_task_ids := [], priority_score := 0, estimated_pomodoros := est,
    order_index := order, status := status, started_at := none,
    completed_at := none, pomodoros_completed := done, total_focus_time := 0 }

/-- Builder for `records` rows with the fields the claims do not
inspect fixed. -/
def mkRec (id : Nat) (user : Option Nat) (category status priority : String)
    (parent : Option Nat) (progress : Int) (created updated : Int) : Record :=
  { id := id, content := "c", category := category, parent_id := parent,
    user_id := user, priority := priority, progress := progress,
    progress_notes := none, created_at := created, updated_at := updated,
    status := status, task_type := "work" }

/-- C1 fixture: a decoded object with all required analysis fields. -/
def c1Obj : JsonObj :=
  [("execution_strategy", Json.null), ("opportunities", Json.null),
   ("subtask_suggestions", Json.null)]

/-- C1 fixture: a decoder that accepts any substring. -/
def c1Loads : JsonLoads := fun _ => some c1Obj

/-- C1 fixture: a raw completion text with one brace pair. -/
def c1Response : List Char := ['a', '\x7b', 'x', '\x7d']

/-- C2 fixture: owner 1 has one active and one pending Focus-Task. -/
def c2Tasks : List PomodoroTask :=
  [mkPomoTask 1 1 "active" 1 1 0, mkPomoTask 2 1 "pending" 2 1 0]

/-- C3 fixture: owner 1 has one active task record. -/
def c3Records : List Record :=
  [mkRec 1 (some 1) "task" "active" "high" none 0 0 0]

/-- C3 fixture: owner 1 already holds one Focus-Task. -/
def c3Tasks : List PomodoroTask :=
  [mkPomoTask 1 1 "pending" 1 1 0]

/-- C3 fixture: a successfully parsed one-entry AI batch. -/
def c3Data : List PomoTaskData :=
  [{ title := "T", description := "D", related_task_ids := [1],
     priority_score := 50, estimated_pomodoros := 1, ai_reasoning := "r" }]

/-- The Focus-Task the C3 batch inserts. -/
def c3NewTask : PomodoroTask :=
  { id := 100, user_id := 1, title := "T", description := "D",
    related_task_ids := [1], priority_score := 50, estimated_pomodoros := 1,
    order_index := 1, status := "pending", started_at := none,
    completed_at := none, pomodoros_completed := 0, total_focus_time := 0 }

/-- C4 fixture: a pending Focus-Task with an estimate of one work-unit. -/
def c4Task : PomodoroTask := mkPomoTask 1 1 "pending" 1 1 0

/-- C4 fixture: a pending Focus-Task with an estimate of two work-units. -/
def c4TaskTwo : PomodoroTask := mkPomoTask 2 1 "pending" 2 2 0

/-- C5 fixture: the source record being added as a single Focus-Task. -/
def c5Records : List Record :=
  [mkRec 7 (some 1) "task" "active" "urgent" none 0 0 0]

/-- C5 fixture: owner 1 has an active and a pending Focus-Task. -/
def c5Tasks : List PomodoroTask :=
  [mkPomoTask 1 1 "active" 1 1 0, mkPomoTask 2 1 "pending" 2 1 0]

/-- C6 fixture: a root task and a task that is already a child of it. -/
def c6Root : Record := mkRec 10 none "task" "active" "medium" none 0 0 0

/-- C6 fixture: child of `c6Root`, itself of category `task`. -/
def c6Child : Record := mkRec 20 none "task" "active" "medium" (some 10) 0 0 0

/-- C6 fixture: empty optional fields of the create request. -/
def c6NoOpts : CreateOpts := { progress_notes := none, priority := none, status := none }

/-- The record `create_record` produces for the C6 counterexample: a
child of `c6Child`, giving the hierarchy depth 2. -/
def c6New : Record :=
  { id := 30, content := "x", category := "task", parent_id := some 20,
    user_id := none, priority := "medium", progress := 0,
    progress_notes := none, created_at := 0, updated_at := 0,
    status := "active", task_type := "work" }

/-- C7 fixture: a soft-deleted record of owner 1. -/
def c7Rec : Record := mkRec 5 (some 1) "task" "deleted" "medium" none 0 0 0

/-- C7 fixture: an update request that only sets `status` to `active`. -/
def c7Data : UpdateData :=
  { content := none, status := some "active", priority := none,
    progress_notes := none, progress := none, task_type := none }

/-- C8 fixture: the efficiency-score scenario of the spec — 10 tasks of
owner 1 in the window [0, 100] at `now = 100`: 6 completed (among them
both high-priority tasks), one stalled active task (created more than 7
days ago with progress below 100), one recently created active task and
two paused tasks. -/
def c8Records : List Record :=
  [mkRec 1 (some 1) "task" "completed" "high" none 100 50 50,
   mkRec 2 (some 1) "task" "completed" "high" none 100 50 50,
   mkRec 3 (some 1) "task" "completed" "medium" none 100 50 50,
   mkRec 4 (some 1) "task" "completed" "medium" none 100 50 50,
   mkRec 5 (some 1) "task" "completed" "medium" none 100 50 50,
   mkRec 6 (some 1) "task" "completed" "medium" none 100 50 50,
   mkRec 7 (some 1) "task" "active" "medium" none 0 95 95,
   mkRec 8 (some 1) "task" "active" "medium" none 20 50 50,
   mkRec 9 (some 1) "task" "paused" "medium" none 0 50 50,
   mkRec 10 (some 1) "task" "paused" "medium" none 0 50 50]

/-- C9 fixture: an active task of owner 1 with progress 0, unmodified
since day 0 (the analysis runs at `now = 30` over the window [0, 30]). -/
def c9Rec : Record := mkRec 3 (some 1) "task" "active" "medium" none 0 0 0

/-- C9 fixture store. -/
def c9Records : List Record := [c9Rec]

/-- Modelled from the spec wording of claim C9, for comparison with the
code: the owner's records that are active, below 100% progress, and
unmodified (per `updated_at`) for more than 7 days. -/
def stalled_tasks_spec (records : List Record) (user_id : Nat) (now : Int) :
    List Record :=
  records.filter (fun r =>
    r.user_id == some user_id && r.status == "active" && r.progress < 100 &&
      now - r.updated_at > 7)

/-- C10 fixture: a single record of owner 1. -/
def c10Records : List Record :=
  [mkRec 9 (some 1) "task" "active" "medium" none 0 0 0]

/-! ## Helper lemmas -/

/-- `replaceFirst` does not increase a count when the replacement never
turns a non-`q` element into a `q` element. -/
theorem countP_replaceFirst_le (p q : α → Bool) (f : α → α)
    (hf : ∀ x, q (f x) = true → q x = true) :
    ∀ l : List α, (replaceFirst p f l).countP q ≤ l.countP q := by
  intro l
  induction l with
  | nil => simp [replaceFirst]
  | cons x xs ih =>
    by_cases hp : p x = true
    · simp only [replaceFirst, hp, if_true, List.countP_cons]
      refine Nat.add_le_add_left ?_ _
      by_cases hq : q (f x) = true
      · simp [hq, hf x hq]
      · simp only [hq, if_false]
        exact Nat.zero_le _
    · have hx : replaceFirst p f (x :: xs) = x :: replaceFirst p f xs := by
        simp [replaceFirst, hp]
      rw [hx, List.countP_cons, List.countP_cons]
      exact Nat.add_le_add_right ih _

/-- Skipping the first active task of an owner with at most one active
task leaves the owner with no active task. -/
theorem countP_skipFirst_eq_zero (u : Nat) :
    ∀ l : List PomodoroTask, l.countP (isActiveOf u) ≤ 1 →
      (replaceFirst (isActiveOf u) (fun t => (skip_task t).2) l).countP
        (isActiveOf u) = 0 := by
  intro l
  induction l with
  | nil => intro _; simp [replaceFirst]
  | cons x xs ih =>
    intro h
    by_cases hp : isActiveOf u x = true
    · simp only [replaceFirst, hp, if_true, List.countP_cons]
      have hxs : xs.countP (isActiveOf u) = 0 := by
        simp only [List.countP_cons, hp, if_true] at h
        omega
      have hskip : isActiveOf u (skip_task x).2 = false := by
        simp [isActiveOf, skip_task]
      simp [hxs, hskip]
    · simp only [replaceFirst, hp, if_false, List.countP_cons]
      have hxs : xs.countP (isActiveOf u) ≤ 1 := by
        simp only [List.countP_cons, hp, if_false] at h
        omega
      simp [hp, ih hxs]

/-- `replaceFirst` with at most one match replaces the matching
element. -/
theorem mem_replaceFirst_of_unique (p : α → Bool) (f : α → α) {t : α} :
    ∀ l : List α, l.countP p ≤ 1 → t ∈ l → p t = true →
      f t ∈ replaceFirst p f l := by
  intro l
  induction l with
  | nil => intro _ h; cases h
  | cons x xs ih =>
    intro h hmem hpt
    by_cases hp : p x = true
    · simp only [replaceFirst, hp, if_true]
      rcases List.mem_cons.mp hmem with rfl | hmem2
      · exact List.mem_cons_self _ _
      · exfalso
        have : 0 < xs.countP p := List.countP_pos.mpr ⟨t, hmem2, hpt⟩
        simp only [List.countP_cons, hp, if_true] at h
        omega
    · simp only [replaceFirst, hp, if_false]
      rcases List.mem_cons.mp hmem with rfl | hmem2
      · exact absurd hpt (by simp [hp])
      · have hxs : xs.countP p ≤ 1 := by
          simp only [List.countP_cons, hp, if_false] at h
          omega
        exact List.mem_cons_of_mem _ (ih hxs hmem2 hpt)

/-- `replaceFirst` keeps every element not matching the predicate. -/
theorem mem_replaceFirst_of_not_p (p : α → Bool) (f : α → α) {t : α} :
    ∀ l : List α, t ∈ l → p t = false → t ∈ replaceFirst p f l := by
  intro l
  induction l with
  | nil => intro h; cases h
  | cons x xs ih =>
    intro hmem hpt
    by_cases hp : p x = true
    · simp only [replaceFirst, hp, if_true]
      rcases List.mem_cons.mp hmem with rfl | hmem2
      · exact absurd hp (by simp [hpt])
      · exact List.mem_cons_of_mem _ hmem2
    · simp only [replaceFirst, hp, if_false]
      rcases List.mem_cons.mp hmem with rfl | hmem2
      · exact List.mem_cons_self _ _
      · exact List.mem_cons_of_mem _ (ih hmem2 hpt)

/-- Mapping commutes with `replaceFirst` when the replacement is
invisible to the mapped function. -/
theorem map_replaceFirst_eq (p : α → Bool) (f : α → α) (g : α → β)
    (hg : ∀ x, g (f x) = g x) :
    ∀ l : List α, (replaceFirst p f l).map g = l.map g := by
  intro l
  induction l with
  | nil => rfl
  | cons x xs ih =>
    by_cases hp : p x = true
    · simp [replaceFirst, hp, hg]
    · simp [replaceFirst, hp, ih]

/-- `removeFirst` yields a sublist. -/
theorem removeFirst_sublist (p : α → Bool) :
    ∀ l : List α, (removeFirst p l).Sublist l := by
  intro l
  induction l with
  | nil => simp [removeFirst]
  | cons x xs ih =>
    by_cases hp : p x = true
    · simp [removeFirst, hp, List.sublist_cons_self x xs]
    · simpa [removeFirst, hp] using List.Sublist.cons₂ x ih

/-- The order-index bump is invisible to the active-task predicate. -/
theorem isActiveOf_orderBump (user_id newId u : Nat) (t : PomodoroTask) :
    isActiveOf u (orderBump user_id newId t) = isActiveOf u t := by
  unfold orderBump
  split <;> simp [isActiveOf]

/-- Bumping order indices does not change active-task counts. -/
theorem countP_map_orderBump (user_id newId u : Nat) (l : List PomodoroTask) :
    (l.map (orderBump user_id newId)).countP (isActiveOf u) =
      l.countP (isActiveOf u) := by
  rw [List.countP_map]
  exact List.countP_congr (fun x _ => by
    rw [Function.comp_apply, isActiveOf_orderBump])

/-- The auto-started single task: `start_pomodoro` on the freshly
constructed pending payload activates it and stamps the start time. -/
theorem started_single_task (user_id record_id newId now : Nat) (record : Record) :
    (start_pomodoro (single_task_payload user_id record_id newId record) now).2 =
      { single_task_payload user_id record_id newId record with
        status := "active", started_at := some now } := by
  simp [start_pomodoro, single_task_payload]

/-- The auto-started single task is active exactly for its owner. -/
theorem isActiveOf_new_single (user_id record_id newId now u : Nat)
    (record : Record) :
    isActiveOf u
      ((start_pomodoro (single_task_payload user_id record_id newId record) now).2) =
      true ↔ u = user_id := by
  rw [started_single_task]
  simp [isActiveOf, single_task_payload]
  exact eq_comm

/-- The invariant follows from checking the owners that occur in the
table (an owner with no task has no active task). -/
theorem activeInvariant_of_mem (tasks : List PomodoroTask)
    (h : ∀ t ∈ tasks, countActive tasks t.user_id ≤ 1) :
    activeInvariant tasks := by
  intro u
  by_cases hc : countActive tasks u ≤ 1
  · exact hc
  · exfalso
    have hpos : 0 < tasks.countP (isActiveOf u) := by
      unfold countActive at hc
      omega
    obtain ⟨t, hmem, hq⟩ := List.countP_pos.mp hpos
    have hu : t.user_id = u := by
      simp only [isActiveOf, Bool.and_eq_true, beq_iff_eq] at hq
      exact hq.1
    exact hc (hu ▸ h t hmem)

/-- A non-`start` action never turns an inactive task into an active
one (it also preserves the owner). -/
theorem applyAction_no_new_active (action : String) (hact : action ≠ "start")
    (now : Nat) (u : Nat) (x : PomodoroTask) :
    isActiveOf u (applyAction action now x).2 = true → isActiveOf u x = true := by
  intro h
  unfold applyAction at h
  rw [if_neg hact] at h
  by_cases hc : action = "complete"
  · rw [if_pos hc] at h
    unfold complete_pomodoro at h
    by_cases hs : x.status = "active"
    · rw [if_pos hs] at h
      simp only at h
      split at h
      · simp [isActiveOf] at h
      · simpa [isActiveOf, hs] using h
    · rwa [if_neg hs] at h
  · rw [if_neg hc] at h
    by_cases hk : action = "skip"
    · rw [if_pos hk] at h
      simp [isActiveOf, skip_task] at h
    · rw [if_neg hk] at h
      by_cases hr : action = "reset"
      · rw [if_pos hr] at h
        simp [isActiveOf, reset_task] at h
      · rwa [if_neg hr] at h

/-- Every task inserted by `_create_pomodoro_tasks` starts pending. -/
theorem create_pomodoro_tasks_status (u b : Nat) :
    ∀ (i : Nat) (ds : List PomoTaskData),
      ∀ t ∈ create_pomodoro_tasks u b i ds, t.status = "pending" := by
  intro i ds
  induction ds generalizing i with
  | nil => intro t ht; cases ht
  | cons d ds ih =>
    intro t ht
    rcases List.mem_cons.mp ht with rfl | hmem
    · rfl
    · exact ih (i + 1) t hmem

/-- Order indices produced by `_create_pomodoro_tasks` count up from
`i + 1`. -/
theorem create_pomodoro_tasks_order (u b : Nat) :
    ∀ (ds : List PomoTaskData) (i : Nat),
      (create_pomodoro_tasks u b i ds).map (fun t => t.order_index) =
        (List.range ds.length).map (fun j => ((i + j : Nat) : Int) + 1) := by
  intro ds
  induction ds with
  | nil => intro i; rfl
  | cons d ds ih =>
    intro i
    simp only [create_pomodoro_tasks, List.map_cons, List.length_cons,
      List.range_succ_eq_map, List.map_map]
    refine congrArg₂ _ (by simp) ?_
    rw [ih (i + 1)]
    refine List.map_congr_left ?_
    intro j _
    simp only [Function.comp_apply]
    push_cast
    ring

/-! ## Claim C1 -/

/-- C1: for every raw completion text, if the substring from the first
opening brace to the last closing brace decodes as a JSON object with
all of `execution_strategy`, `opportunities`, `subtask_suggestions`,
`_parse_ai_response` returns that decoded object; if the text has no
brace pair, or the substring fails to decode, or a required field is
missing, it returns the static fallback payload; the function is total,
so no input makes it raise to its caller. -/
theorem C1_parse_ai_response_contract :
    ∀ (loads : JsonLoads) (response : List Char),
      (∀ sub obj, extractJsonSubstring response = some sub →
        loads sub = some obj →
        requiredAnalysisFields.all (fun f => obj.hasField f) = true →
        parse_ai_response loads response = obj) ∧
      (extractJsonSubstring response = none →
        parse_ai_response loads response = get_fallback_response) ∧
      (∀ sub, extractJsonSubstring response = some sub → loads sub = none →
        parse_ai_response loads response = get_fallback_response) ∧
      (∀ sub obj, extractJsonSubstring response = some sub →
        loads sub = some obj →
        requiredAnalysisFields.all (fun f => obj.hasField f) = false →
        parse_ai_response loads response = get_fallback_response) := by
  intro loads response
  refine ⟨?_, ?_, ?_, ?_⟩
  · intro sub obj h1 h2 h3
    simp [parse_ai_response, parse_ai_response_core, h1, h2, h3]
  · intro h1
    simp [parse_ai_response, parse_ai_response_core, h1]
  · intro sub h1 h2
    simp [parse_ai_response, parse_ai_response_core, h1, h2]
  · intro sub obj h1 h2 h3
    simp [parse_ai_response, parse_ai_response_core, h1, h2, h3]

/-- C1 witness: on a concrete text the parser hands the brace-delimited
substring to the decoder and returns the decoded object. -/
theorem C1_parse_ai_response_contract_witness :
    extractJsonSubstring c1Response = some ['\x7b', 'x', '\x7d'] ∧
    parse_ai_response c1Loads c1Response = c1Obj :=
  ⟨by decide,
   (C1_parse_ai_response_contract c1Loads c1Response).1
     ['\x7b', 'x', '\x7d'] c1Obj (by decide) rfl (by decide)⟩

/-! ## Claim C4 -/

/-- While the counter stays below the estimate, each `complete_pomodoro`
keeps the task active and increments the counter. -/
theorem completeN_active (now : Nat) :
    ∀ (k : Nat) (t : PomodoroTask), t.status = "active" →
      t.pomodoros_completed + k < t.estimated_pomodoros →
      (completeN k now t).status = "active" ∧
      (completeN k now t).pomodoros_completed = t.pomodoros_completed + k ∧
      (completeN k now t).estimated_pomodoros = t.estimated_pomodoros := by
  intro k
  induction k with
  | zero =>
    intro t h1 _
    refine ⟨?_, ?_, ?_⟩ <;> simp [completeN, h1]
  | succ k ih =>
    intro t h1 h2
    have step : completeN (k + 1) now t =
        completeN k now ((complete_pomodoro t 25 now).2) := by
      simp [completeN, Function.iterate_succ_apply]
    have hlt : ¬ (t.estimated_pomodoros ≤ t.pomodoros_completed + 1) := by
      omega
    have hc : (complete_pomodoro t 25 now).2 =
        { t with pomodoros_completed := t.pomodoros_completed + 1,
                 total_focus_time := t.total_focus_time + 25 } := by
      simp [complete_pomodoro, h1, hlt]
    rw [step, hc]
    obtain ⟨s1, s2, s3⟩ := ih
      { t with pomodoros_completed := t.pomodoros_completed + 1,
               total_focus_time := t.total_focus_time + 25 }
      (by simpa using h1) (by simp; omega)
    refine ⟨s1, ?_, by simpa using s3⟩
    rw [s2]
    simp
    omega

/-- An active task below its estimate reaches `completed` after the
remaining number of `complete_pomodoro` calls. -/
theorem completeN_completes (now : Nat) (t : PomodoroTask)
    (h1 : t.status = "active")
    (h2 : t.pomodoros_completed < t.estimated_pomodoros) :
    (completeN (t.estimated_pomodoros - t.pomodoros_completed) now t).status =
      "completed" := by
  set k := t.estimated_pomodoros - t.pomodoros_completed - 1 with hk
  have hsucc : t.estimated_pomodoros - t.pomodoros_completed = k + 1 := by
    omega
  rw [hsucc]
  have step : completeN (k + 1) now t =
      (complete_pomodoro (completeN k now t) 25 now).2 := by
    simp [completeN, Function.iterate_succ_apply']
  obtain ⟨s1, s2, s3⟩ := completeN_active now k t h1 (by omega)
  rw [step]
  have hge : (completeN k now t).estimated_pomodoros ≤
      (completeN k now t).pomodoros_completed + 1 := by
    rw [s2, s3]
    omega
  simp [complete_pomodoro, s1, hge]

/-- C4 counterexample: the claim asserts that calling `completeUnit`
`estimatedUnits` times on a task that starts in `pending` drives it to
`completed`; on a pending one-unit task one `complete_pomodoro` call is
rejected and the task stays pending. -/
theorem C4_counterexample :
    c4Task.status = "pending" ∧ c4Task.estimated_pomodoros = 1 ∧
    complete_pomodoro c4Task 25 5 = (false, c4Task) ∧
    (completeN c4Task.estimated_pomodoros 5 c4Task).status = "pending" := by
  refine ⟨rfl, rfl, by decide, by decide⟩

/-- C4 amended: `start` from any status other than `pending` fails and
changes nothing; `complete_pomodoro` is valid only while `active`,
increments the work-unit counter and the accumulated minutes, and
transitions to `completed` (stamping the completion time) exactly when
the incremented counter reaches the estimate; a pending task is driven
through pending→active→completed by one `start` followed by
`estimatedUnits` calls of `complete_pomodoro` — not by `completeUnit`
alone — with the transition happening on the final call; `reset`
returns the task to `pending` with counter, minutes and both timestamps
cleared. -/
theorem C4_focus_task_state_machine :
    (∀ (t : PomodoroTask) (now : Nat), t.status ≠ "pending" →
      start_pomodoro t now = (false, t)) ∧
    (∀ (t : PomodoroTask) (m now : Nat), t.status ≠ "active" →
      complete_pomodoro t m now = (false, t)) ∧
    (∀ (t : PomodoroTask) (m now : Nat), t.status = "active" →
      (complete_pomodoro t m now).1 = true ∧
      (complete_pomodoro t m now).2.pomodoros_completed =
        t.pomodoros_completed + 1 ∧
      (complete_pomodoro t m now).2.total_focus_time = t.total_focus_time + m ∧
      ((complete_pomodoro t m now).2.status = "completed" ↔
        t.estimated_pomodoros ≤ t.pomodoros_completed + 1) ∧
      (t.estimated_pomodoros ≤ t.pomodoros_completed + 1 →
        (complete_pomodoro t m now).2.completed_at = some now) ∧
      (t.pomodoros_completed + 1 < t.estimated_pomodoros →
        (complete_pomodoro t m now).2.status = "active")) ∧
    (∀ (t : PomodoroTask) (now k : Nat), t.status = "pending" →
      t.pomodoros_completed = 0 → 1 ≤ t.estimated_pomodoros →
      (k < t.estimated_pomodoros →
        (completeN k now (start_pomodoro t now).2).status = "active") ∧
      (completeN t.estimated_pomodoros now (start_pomodoro t now).2).status =
        "completed") ∧
    (∀ t : PomodoroTask, t.status = "completed" →
      reset_task t = (true, { t with
        status := "pending",
        started_at := none,
        completed_at := none,
        pomodoros_completed := 0,
        total_focus_time := 0 })) := by
  refine ⟨?_, ?_, ?_, ?_, ?_⟩
  · intro t now h
    simp [start_pomodoro, h]
  · intro t m now h
    simp [complete_pomodoro, h]
  · intro t m now h
    by_cases hge : t.estimated_pomodoros ≤ t.pomodoros_completed + 1
    · refine ⟨?_, ?_, ?_, ?_, ?_, ?_⟩ <;> simp [complete_pomodoro, h, hge]
    · refine ⟨?_, ?_, ?_, ?_, ?_, ?_⟩ <;> simp [complete_pomodoro, h, hge]
  · intro t now k h1 h2 h3
    have hstart : (start_pomodoro t now).2 =
        { t with status := "active", started_at := some now } := by
      simp [start_pomodoro, h1]
    constructor
    · intro hk
      rw [hstart]
      exact (completeN_active now k _ rfl (by simp [h2]; omega)).1
    · rw [hstart]
      have := completeN_completes now
        { t with status := "active", started_at := some now } rfl
        (by simp [h2]; omega)
      simpa [h2] using this
  · intro t _
    rfl

/-- C4 witness: concrete runs of the amended state machine — `start` on
an active task fails, a pending two-unit task completes after `start`
plus two `complete_pomodoro` calls, and `reset` zeroes a completed
task. -/
theorem C4_focus_task_state_machine_witness :
    start_pomodoro (mkPomoTask 3 1 "active" 1 1 0) 7 =
      (false, mkPomoTask 3 1 "active" 1 1 0) ∧
    (completeN 2 7 (start_pomodoro c4TaskTwo 7).2).status = "completed" ∧
    reset_task (mkPomoTask 4 1 "completed" 1 1 1) =
      (true, mkPomoTask 4 1 "pending" 1 1 0) := by
  have h := C4_focus_task_state_machine
  refine ⟨h.1 _ 7 (by decide), ?_, ?_⟩
  · have := (h.2.2.2.1 c4TaskTwo 7 2 rfl rfl (by decide)).2
    simpa using this
  · have := h.2.2.2.2 (mkPomoTask 4 1 "completed" 1 1 1) rfl
    rw [this]
    decide

/-! ## Claim C2 -/

/-- C2 counterexample: the claim asserts that every exposed Focus-Task
operation preserves the at-most-one-active-per-owner invariant, but
`update_task_status` with action `start` on a pending task does not
check for an already active task of the same owner: starting task 2
while task 1 is active leaves owner 1 with two active tasks. -/
theorem C2_counterexample :
    activeInvariant c2Tasks ∧
    ¬ activeInvariant (applyPomOp [] c2Tasks (.update 2 1 "start" 5)) := by
  constructor
  · exact activeInvariant_of_mem _ (by decide)
  · intro h
    exact absurd (h 1) (by decide)

/-- C2 (amended): every exposed Focus-Task operation other than `start`
(generateBatch, addSingleTask, completeUnit, skip, reset, individual
delete) preserves the at-most-one-active-Focus-Task-per-owner
invariant; `start` does not, because it never checks for an existing
active task of the owner. -/
theorem C2_active_invariant_preserved :
    ∀ (records : List Record) (tasks : List PomodoroTask) (op : PomOp),
      op.isStartOp = false → activeInvariant tasks →
      activeInvariant (applyPomOp records tasks op) := by
  intro records tasks op hop hinv
  cases op with
  | update task_id user_id action now =>
    have haction : action ≠ "start" := by
      intro hcontra
      rw [hcontra] at hop
      simp [PomOp.isStartOp] at hop
    intro u
    simp only [applyPomOp]
    unfold update_task_status
    cases hfind : tasks.find? (byIdUser task_id user_id) with
    | none => exact hinv u
    | some t =>
      by_cases hsucc : (applyAction action now t).1 = true
      · simp only [hsucc, if_true]
        exact le_trans
          (countP_replaceFirst_le _ _ _
            (applyAction_no_new_active action haction now u) tasks)
          (hinv u)
      · simp only [hsucc, if_false]
        exact hinv u
  | addSingle user_id record_id newId now =>
    intro u
    simp only [applyPomOp]
    unfold add_single_task_to_pomodoro
    cases hfind : records.find?
        (fun r => r.id == record_id && r.user_id == some user_id) with
    | none => exact hinv u
    | some record =>
      show ((replaceFirst (isActiveOf user_id) (fun t => (skip_task t).2) tasks ++
          [(start_pomodoro (single_task_payload user_id record_id newId record)
              now).2]).map (orderBump user_id newId)).countP (isActiveOf u) ≤ 1
      rw [countP_map_orderBump, List.countP_append]
      by_cases hu : u = user_id
      · subst hu
        have h0 := countP_skipFirst_eq_zero u tasks (hinv u)
        have h1 : List.countP (isActiveOf u)
            [(start_pomodoro (single_task_payload u record_id newId record)
                now).2] ≤ 1 :=
          le_trans (List.countP_le_length _) (by simp)
        omega
      · have h2 : List.countP (isActiveOf u)
            (replaceFirst (isActiveOf user_id) (fun t => (skip_task t).2) tasks) ≤
            tasks.countP (isActiveOf u) := by
          refine countP_replaceFirst_le _ _ _ ?_ tasks
          intro x hx
          simp [isActiveOf, skip_task] at hx
        have h3 := hinv u
        have h4 : List.countP (isActiveOf u)
            [(start_pomodoro (single_task_payload user_id record_id newId record)
                now).2] = 0 := by
          simp only [List.countP_cons, List.countP_nil]
          simp [isActiveOf_new_single, hu]
        unfold countActive at h3
        omega
  | generate user_id parsed baseId =>
    intro u
    simp only [applyPomOp]
    unfold generate_pomodoro_tasks
    by_cases hempty : (get_user_top_tasks records user_id).isEmpty = true
    · rw [if_pos hempty]
      exact hinv u
    · rw [if_neg hempty]
      cases parsed with
      | none => exact hinv u
      | some ds =>
        show (clear_user_tasks tasks user_id ++
            create_pomodoro_tasks user_id baseId 0 ds).countP (isActiveOf u) ≤ 1
        rw [List.countP_append]
        have hnew : (create_pomodoro_tasks user_id baseId 0 ds).countP
            (isActiveOf u) = 0 := by
          rw [List.countP_eq_zero]
          intro t ht
          have hst := create_pomodoro_tasks_status user_id baseId 0 ds t ht
          simp [isActiveOf, hst]
        have hcl : (clear_user_tasks tasks user_id).countP (isActiveOf u) ≤
            tasks.countP (isActiveOf u) :=
          (List.filter_sublist _).countP_le _
        have h3 := hinv u
        unfold countActive at h3
        omega
  | deleteTask task_id user_id =>
    intro u
    simp only [applyPomOp]
    unfold delete_pomodoro_task
    cases hfind : tasks.find? (byIdUser task_id user_id) with
    | none => exact hinv u
    | some t =>
      exact le_trans ((removeFirst_sublist _ tasks).countP_le _) (hinv u)

/-- C2 witness: skipping the active task of owner 1 in a concrete
two-task table keeps the owner at no more than one active task. -/
theorem C2_active_invariant_preserved_witness :
    countActive (applyPomOp [] c2Tasks (.update 1 1 "skip" 5)) 1 ≤ 1 :=
  C2_active_invariant_preserved [] c2Tasks (.update 1 1 "skip" 5) (by decide)
    (activeInvariant_of_mem _ (by decide)) 1

/-! ## Claim C5 -/

/-- C5: for an owner holding exactly one active Focus-Task,
`add_single_task_to_pomodoro` succeeds, the previously active task ends
skipped with its ordering index shifted by one, the new task enters
active at ordering index 0 with the priority score of the fixed mapping
applied to the source record's priority, every other task of the owner
keeps its status and moves up one index, and the mapping is
urgent→90, high→75, medium→50, low→25. -/
theorem C5_add_single_task :
    ∀ (records : List Record) (tasks : List PomodoroTask)
      (user_id record_id newId now : Nat) (record : Record),
      records.find? (fun r => r.id == record_id && r.user_id == some user_id) =
        some record →
      tasks.countP (isActiveOf user_id) = 1 →
      (∀ t ∈ tasks, t.id ≠ newId) →
      (add_single_task_to_pomodoro records tasks user_id record_id newId now).1 =
        true ∧
      (∀ t ∈ tasks, isActiveOf user_id t = true →
        { t with status := "skipped", order_index := t.order_index + 1 } ∈
          (add_single_task_to_pomodoro records tasks user_id record_id newId
            now).2) ∧
      ({ single_task_payload user_id record_id newId record with
          status := "active", started_at := some now } ∈
        (add_single_task_to_pomodoro records tasks user_id record_id newId now).2 ∧
        (single_task_payload user_id record_id newId record).order_index = 0 ∧
        (single_task_payload user_id record_id newId record).priority_score =
          calculate_priority_score record.priority) ∧
      (∀ t ∈ tasks, t.user_id = user_id → isActiveOf user_id t = false →
        { t with order_index := t.order_index + 1 } ∈
          (add_single_task_to_pomodoro records tasks user_id record_id newId
            now).2) ∧
      (calculate_priority_score "urgent" = 90 ∧
        calculate_priority_score "high" = 75 ∧
        calculate_priority_score "medium" = 50 ∧
        calculate_priority_score "low" = 25) := by
  intro records tasks user_id record_id newId now record hfind hone hfresh
  have hstate : add_single_task_to_pomodoro records tasks user_id record_id
      newId now =
      (true, ((replaceFirst (isActiveOf user_id) (fun t => (skip_task t).2) tasks ++
        [(start_pomodoro (single_task_payload user_id record_id newId record)
            now).2]).map (orderBump user_id newId))) := by
    unfold add_single_task_to_pomodoro
    rw [hfind]
  refine ⟨by rw [hstate], ?_, ⟨?_, rfl, rfl⟩, ?_, by decide⟩
  · intro t hmem hact
    rw [hstate]
    have huser : t.user_id = user_id := by
      simp only [isActiveOf, Bool.and_eq_true, beq_iff_eq] at hact
      exact hact.1
    have hm1 : (skip_task t).2 ∈
        replaceFirst (isActiveOf user_id) (fun x => (skip_task x).2) tasks :=
      mem_replaceFirst_of_unique _ _ tasks (le_of_eq hone) hmem hact
    have hm3 := List.mem_map_of_mem (orderBump user_id newId)
      (List.mem_append_left
        [(start_pomodoro (single_task_payload user_id record_id newId record)
          now).2] hm1)
    have hbump : orderBump user_id newId (skip_task t).2 =
        { t with status := "skipped", order_index := t.order_index + 1 } := by
      unfold orderBump skip_task
      rw [if_pos]
      simp [huser, hfresh t hmem]
    rw [hbump] at hm3
    exact hm3
  · rw [hstate]
    have hmemT := List.mem_map_of_mem (orderBump user_id newId)
      (List.mem_append_right
        (replaceFirst (isActiveOf user_id) (fun x => (skip_task x).2) tasks)
        (List.mem_singleton_self
          ((start_pomodoro (single_task_payload user_id record_id newId record)
            now).2)))
    have hid : orderBump user_id newId
        ((start_pomodoro (single_task_payload user_id record_id newId record)
          now).2) =
        (start_pomodoro (single_task_payload user_id record_id newId record)
          now).2 := by
      unfold orderBump
      rw [started_single_task]
      simp [single_task_payload]
    rw [hid, started_single_task] at hmemT
    exact hmemT
  · intro t hmem huser hnact
    rw [hstate]
    have hm1 : t ∈ replaceFirst (isActiveOf user_id)
        (fun x => (skip_task x).2) tasks :=
      mem_replaceFirst_of_not_p _ _ tasks hmem hnact
    have hm3 := List.mem_map_of_mem (orderBump user_id newId)
      (List.mem_append_left
        [(start_pomodoro (single_task_payload user_id record_id newId record)
          now).2] hm1)
    have hbump : orderBump user_id newId t =
        { t with order_index := t.order_index + 1 } := by
      unfold orderBump
      rw [if_pos]
      simp [huser, hfresh t hmem]
    rw [hbump] at hm3
    exact hm3

/-- C5 witness: on a concrete table where owner 1 has an active task
(index 1) and a pending task (index 2), adding an urgent record
skips the active task (now at index 2), inserts the new active task,
and shifts the pending task to index 3. -/
theorem C5_add_single_task_witness :
    (add_single_task_to_pomodoro c5Records c5Tasks 1 7 10 3).1 = true ∧
    ({ mkPomoTask 1 1 "active" 1 1 0 with
        status := "skipped", order_index := (1 : Int) + 1 } ∈
      (add_single_task_to_pomodoro c5Records c5Tasks 1 7 10 3).2) ∧
    ({ single_task_payload 1 7 10
        (mkRec 7 (some 1) "task" "active" "urgent" none 0 0 0) with
        status := "active", started_at := some 3 } ∈
      (add_single_task_to_pomodoro c5Records c5Tasks 1 7 10 3).2) ∧
    ({ mkPomoTask 2 1 "pending" 2 1 0 with order_index := (2 : Int) + 1 } ∈
      (add_single_task_to_pomodoro c5Records c5Tasks 1 7 10 3).2) := by
  have h := C5_add_single_task c5Records c5Tasks 1 7 10 3
    (mkRec 7 (some 1) "task" "active" "urgent" none 0 0 0) (by decide) (by decide)
    (by decide)
  exact ⟨h.1, h.2.1 _ (by decide) (by decide), h.2.2.1.1,
    h.2.2.2.1 _ (by decide) (by decide) (by decide)⟩

/-! ## Claim C3 -/

/-- C3 counterexample: the claim asserts clear-and-insert happens as one
atomic transaction with no persisted intermediate state; on a concrete
successful generation the operation commits two states, and in the
first committed state the owner's previously non-empty batch is
empty. -/
theorem C3_counterexample :
    (generate_pomodoro_tasks c3Records c3Tasks 1 (some c3Data) 100).1 = true ∧
    (generate_pomodoro_tasks c3Records c3Tasks 1 (some c3Data) 100).2.2 =
      [[], [c3NewTask]] ∧
    c3Tasks.filter (fun t => t.user_id == 1) ≠ [] := by
  refine ⟨by decide, by decide, by decide⟩

/-- C3 (amended): when the AI response fails to parse the operation
fails and commits nothing, leaving the owner's batch unchanged; on a
successful parse the owner's prior batch is cleared and the new entries
inserted with sequential ordering indices 1..n (1–5 for a full batch),
but via two separately committed transactions, the first of which
persists a state in which the owner's batch is empty. -/
theorem C3_generate_batch_commits :
    ∀ (records : List Record) (tasks : List PomodoroTask) (user_id : Nat)
      (ds : List PomoTaskData) (baseId : Nat),
      (generate_pomodoro_tasks records tasks user_id none baseId =
        (false, tasks, [])) ∧
      (get_user_top_tasks records user_id ≠ [] →
        generate_pomodoro_tasks records tasks user_id (some ds) baseId =
          (true,
            clear_user_tasks tasks user_id ++
              create_pomodoro_tasks user_id baseId 0 ds,
            [clear_user_tasks tasks user_id,
              clear_user_tasks tasks user_id ++
                create_pomodoro_tasks user_id baseId 0 ds]) ∧
        (create_pomodoro_tasks user_id baseId 0 ds).map (fun t => t.order_index) =
          (List.range ds.length).map (fun j => ((j : Nat) : Int) + 1) ∧
        (clear_user_tasks tasks user_id).filter
          (fun t => t.user_id == user_id) = []) := by
  intro records tasks user_id ds baseId
  constructor
  · unfold generate_pomodoro_tasks
    by_cases hempty : (get_user_top_tasks records user_id).isEmpty = true
    · rw [if_pos hempty]
    · rw [if_neg hempty]
  · intro hne
    have hempty : ¬ ((get_user_top_tasks records user_id).isEmpty = true) := by
      simpa [List.isEmpty_iff] using hne
    refine ⟨?_, ?_, ?_⟩
    · unfold generate_pomodoro_tasks
      rw [if_neg hempty]
    · have h := create_pomodoro_tasks_order user_id baseId ds 0
      rw [h]
      exact List.map_congr_left (fun j _ => by omega)
    · rw [List.filter_eq_nil]
      intro t ht
      have hmem := List.mem_filter.mp ht
      simp only [bne_iff_ne, ne_eq] at hmem
      simp [hmem.2]

/-- C3 witness: the amended description evaluated on a concrete store,
batch and parsed AI payload. -/
theorem C3_generate_batch_commits_witness :
    generate_pomodoro_tasks c3Records c3Tasks 1 (some c3Data) 100 =
      (true, [c3NewTask], [[], [c3NewTask]]) := by
  have h := (C3_generate_batch_commits c3Records c3Tasks 1 c3Data 100).2
    (by decide)
  rw [h.1]
  decide

/-! ## Claim C6 -/

/-- C6 counterexample: the claim asserts that `create_record` rejects a
parent that is itself already a child; on a concrete store the handler
accepts `c6Child` (a record with a non-null parent identifier) as
parent and creates a depth-2 child. -/
theorem C6_counterexample :
    c6Child.parent_id = some 10 ∧
    create_record [c6Root, c6Child] 30 "x" "task" (some 20) none "work"
      c6NoOpts 0 = .ok ([c6Root, c6Child, c6New], c6New) ∧
    c6New.parent_id = some 20 := by
  refine ⟨rfl, rfl, rfl⟩

/-- C6 (amended): `create_record` with a parent identifier returns a
domain validation error and creates no record when the referenced
parent is missing in the caller's scope or is not of category `task`;
it performs no check that the parent is itself a child, so the
hierarchy depth can exceed 1 (see the counterexample). -/
theorem C6_create_record_parent_validation :
    ∀ (records : List Record) (newId : Nat) (content0 category : String)
      (pid : Nat) (user : Option Nat) (task_type0 : String) (opts : CreateOpts)
      (now : Int),
      content0 ≠ "" → (pyStrip content0).length ≤ 5000 →
      validCategories.contains category = true →
      (records.find? (fun r => r.id == pid && r.user_id == user) = none →
        create_record records newId content0 category (some pid) user task_type0
          opts now = .error "RECORD_NOT_FOUND") ∧
      (∀ parent, records.find? (fun r => r.id == pid && r.user_id == user) =
          some parent → parent.is_task = false →
        create_record records newId content0 category (some pid) user task_type0
          opts now = .error "RECORD_NOT_FOUND") := by
  intro records newId content0 category pid user task_type0 opts now h1 h2 h3
  constructor
  · intro hfind
    simp only [create_record, if_neg h1]
    rw [if_neg (by omega : ¬ (pyStrip content0).length > 5000)]
    rw [if_neg (show ¬ ((!validCategories.contains category) = true) by
      rw [h3]; simp)]
    simp only [hfind]
  · intro parent hfind htask
    simp only [create_record, if_neg h1]
    rw [if_neg (by omega : ¬ (pyStrip content0).length > 5000)]
    rw [if_neg (show ¬ ((!validCategories.contains category) = true) by
      rw [h3]; simp)]
    simp only [hfind, htask]
    rfl

/-- C6 witness: a concrete create request whose parent identifier does
not exist is rejected with a not-found validation error. -/
theorem C6_create_record_parent_validation_witness :
    create_record [c6Root] 31 "x" "task" (some 99) none "work" c6NoOpts 0 =
      .error "RECORD_NOT_FOUND" :=
  (C6_create_record_parent_validation [c6Root] 31 "x" "task" 99 none "work"
    c6NoOpts 0 (by decide) (by decide) (by decide)).1 (by decide)

/-! ## Claim C7 -/

/-- C7 counterexample: the claim asserts that `deleted` is terminal; on
a concrete store `update_record` moves a soft-deleted record back to
status `active`. -/
theorem C7_counterexample :
    c7Rec.status = "deleted" ∧
    update_record [c7Rec] 5 (some 1) c7Data 10 =
      .ok [{ c7Rec with status := "active", updated_at := 10 }] ∧
    ({ c7Rec with status := "active", updated_at := 10 }).status ≠ "deleted" := by
  refine ⟨rfl, rfl, by decide⟩

/-- C7 (amended): soft-deleted records are excluded from the default
listing, excluded from the active-subtask aggregate count, and remain
fetchable by identifier (no status filter in `get_record`); but
`deleted` is not terminal: `update_record` accepts a status change on a
record regardless of its current status, including a deleted one. -/
theorem C7_deleted_soft_state :
    (∀ (records : List Record) (user : Option Nat) (r : Record),
      r ∈ get_records records user none → r.status ≠ "deleted") ∧
    (∀ (records : List Record) (record_id : Nat) (user : Option Nat),
      get_record records record_id user =
        records.find? (recByIdUser record_id user)) ∧
    (∀ (r : Record) (records : List Record) (parent : Record),
      r.status = "deleted" →
      subtask_count (r :: records) parent = subtask_count records parent) ∧
    (∀ (records : List Record) (record_id : Nat) (user : Option Nat)
      (s : String) (now : Int),
      (records.find? (recByIdUser record_id user)).isSome = true →
      validUpdateStatuses.contains s = true →
      update_record records record_id user
        { content := none, status := some s, priority := none,
          progress_notes := none, progress := none, task_type := none } now =
        .ok (replaceFirst (recByIdUser record_id user)
          (fun r => { r with status := s, updated_at := now }) records)) := by
  refine ⟨?_, ?_, ?_, ?_⟩
  · intro records user r hmem
    simp only [get_records] at hmem
    have h1 := (List.mem_filter.mp hmem).1
    have h2 := (List.mem_filter.mp h1).2
    simpa using h2
  · intro records record_id user
    rfl
  · intro r records parent hdel
    simp [subtask_count, List.countP_cons, hdel]
  · intro records record_id user s now hfind hs
    unfold update_record
    cases hfound : records.find? (recByIdUser record_id user) with
    | none => rw [hfound] at hfind; cases hfind
    | some r =>
      have hvalid : updateDataValid
          { content := none, status := some s, priority := none,
            progress_notes := none, progress := none, task_type := none } =
          true := by
        have hs2 : s ∈ validUpdateStatuses := by simpa using hs
        simp [updateDataValid, hs2]
      rw [if_pos hvalid]
      rfl

/-- C7 witness: the amended description evaluated on a store holding
one soft-deleted record, whose status is changed to `completed`. -/
theorem C7_deleted_soft_state_witness :
    update_record [c7Rec] 5 (some 1)
      { content := none, status := some "completed", priority := none,
        progress_notes := none, progress := none, task_type := none } 11 =
      .ok (replaceFirst (recByIdUser 5 (some 1))
        (fun r => { r with status := "completed", updated_at := 11 }) [c7Rec]) :=
  C7_deleted_soft_state.2.2.2 [c7Rec] 5 (some 1) "completed" 11 (by decide)
    (by decide)

/-! ## Claim C8 -/

/-- C8: the efficiency score equals the spec formula — completion rate
times 40 plus high-priority completion rate times 30 minus the stalled
penalty `min (5·stalled) 20` plus the flat bonus 10 — whenever the
total, completed and high-priority-total counts are all positive,
clamped to [0, 100] and rounded. -/
theorem C8_efficiency_score_formula :
    ∀ (records : List Record) (user_id : Nat) (startDate endDate now : Int),
      0 < effTotal records user_id startDate endDate →
      0 < effCompleted records user_id startDate endDate →
      0 < effHighTotal records user_id startDate endDate →
      calculate_efficiency_score records user_id startDate endDate now =
        pyRound (max 0 (min 100 (
          (effCompleted records user_id startDate endDate : ℚ) /
            (effTotal records user_id startDate endDate : ℚ) * 40 +
          (effHighCompleted records user_id startDate endDate : ℚ) /
            (effHighTotal records user_id startDate endDate : ℚ) * 30 -
          min (5 * (effStalled records user_id now : ℚ)) 20 + 10))) := by
  intro records user_id startDate endDate now ht hc hh
  simp only [calculate_efficiency_score]
  rw [if_pos ht, if_pos hh, if_pos ⟨hc, ht⟩]
  rw [mul_comm ((effStalled records user_id now : ℚ)) 5]

/-- C8 witness: the spec scenario — 10 tasks, 6 completed, 2
high-priority both completed, 1 stalled — scores
6/10·40 + 2/2·30 − 5 + 10 = 59. -/
theorem C8_efficiency_score_formula_witness :
    calculate_efficiency_score c8Records 1 0 100 100 = 59 := by
  rw [C8_efficiency_score_formula c8Records 1 0 100 100 (by decide) (by decide)
    (by decide),
    show effCompleted c8Records 1 0 100 = 6 from by decide,
    show effTotal c8Records 1 0 100 = 10 from by decide,
    show effHighCompleted c8Records 1 0 100 = 2 from by decide,
    show effHighTotal c8Records 1 0 100 = 2 from by decide,
    show effStalled c8Records 1 100 = 1 from by decide]
  norm_num [pyRound, min_def, max_def]

/-! ## Claim C9 -/

/-- C9 counterexample: the claim characterizes the stalled list as the
owner's active records below 100% progress unmodified for more than 7
days; a record matching exactly that description (progress 0, untouched
for 30 days) is absent from the code's list, because the code requires
`progress > 0` (and measures age from creation, within the window). -/
theorem C9_counterexample :
    (c9Rec.status = "active" ∧ c9Rec.progress < 100 ∧
      30 - c9Rec.updated_at > 7 ∧ c9Rec ∈ c9Records ∧
      c9Rec.user_id = some 1) ∧
    stalled_tasks c9Records 1 0 30 30 = [] ∧
    stalled_tasks_spec c9Records 1 30 = [c9Rec] := by
  refine ⟨by decide, by decide, by decide⟩

/-- C9 (amended): the stalled-task list contains exactly the owner's
records of category `task` created inside the analysis window whose
progress is strictly between 0 and 100, whose status is `active`, and
whose age since creation (not since last modification) exceeds 7
days. -/
theorem C9_stalled_tasks_characterization :
    ∀ (records : List Record) (user_id : Nat) (startDate endDate now : Int)
      (r : Record),
      r ∈ stalled_tasks records user_id startDate endDate now ↔
        (r ∈ records ∧ r.user_id = some user_id ∧ r.category = "task" ∧
          startDate ≤ r.created_at ∧ r.created_at ≤ endDate ∧ 0 < r.progress ∧
          7 < now - r.created_at ∧ r.progress < 100 ∧ r.status = "active") := by
  intro records user_id startDate endDate now r
  unfold stalled_tasks tasks_with_progress
  simp only [List.mem_filter, Bool.and_eq_true, beq_iff_eq, decide_eq_true_eq]
  constructor
  · rintro ⟨⟨hmem, ⟨⟨⟨⟨hu, hcat⟩, h1⟩, h2⟩, hp⟩⟩, ⟨⟨h7, h100⟩, hact⟩⟩
    exact ⟨hmem, hu, hcat, h1, h2, hp, h7, h100, hact⟩
  · rintro ⟨hmem, hu, hcat, h1, h2, hp, h7, h100, hact⟩
    exact ⟨⟨hmem, ⟨⟨⟨⟨hu, hcat⟩, h1⟩, h2⟩, hp⟩⟩, ⟨⟨h7, h100⟩, hact⟩⟩

/-! ## Claim C10 -/

/-- C10: the `Record` model defines no `hard_delete` method, so the
`hard_delete=true` branch of the delete handler raises
`AttributeError`, which the handler catches: it rolls back and answers
with an error, the store unchanged; consequently no record-store
operation ever removes a row — both delete modes and `update_record`
preserve the set of stored row identifiers. -/
theorem C10_hard_delete_attribute_error :
    recordModelMethods.contains "hard_delete" = false ∧
    (∀ (records : List Record) (record_id : Nat) (user : Option Nat)
      (now : Int) (r : Record),
      records.find? (recByIdUser record_id user) = some r →
      delete_record records record_id user true now =
        (.error "删除记录失败: AttributeError: hard_delete", records)) ∧
    (∀ (records : List Record) (record_id : Nat) (user : Option Nat)
      (hard : Bool) (now : Int),
      (delete_record records record_id user hard now).2.map (fun r => r.id) =
        records.map (fun r => r.id)) ∧
    (∀ (records : List Record) (record_id : Nat) (user : Option Nat)
      (d : UpdateData) (now : Int) (st : List Record),
      update_record records record_id user d now = .ok st →
      st.map (fun r => r.id) = records.map (fun r => r.id)) := by
  refine ⟨by decide, ?_, ?_, ?_⟩
  · intro records record_id user now r hfind
    unfold delete_record
    rw [hfind]
    rfl
  · intro records record_id user hard now
    unfold delete_record
    cases hfind : records.find? (recByIdUser record_id user) with
    | none => rfl
    | some r =>
      cases hard with
      | true => rfl
      | false =>
        exact map_replaceFirst_eq (recByIdUser record_id user)
          (fun x => { x with status := "deleted", updated_at := now })
          (fun x => x.id) (fun x => rfl) records
  · intro records record_id user d now st hupd
    have hid : ∀ x : Record, (applyUpdateData d now x).id = x.id := by
      intro x
      unfold applyUpdateData
      cases d.content <;> cases d.status <;> cases d.priority <;>
        cases d.progress_notes <;> cases d.progress <;> cases d.task_type <;>
        rfl
    unfold update_record at hupd
    cases hfind : records.find? (recByIdUser record_id user) with
    | none => rw [hfind] at hupd; cases hupd
    | some r =>
      rw [hfind] at hupd
      by_cases hvalid : updateDataValid d = true
      · rw [if_pos hvalid] at hupd
        have hst := Except.ok.inj hupd
        rw [← hst]
        exact map_replaceFirst_eq _ _ _ hid records
      · rw [if_neg hvalid] at hupd
        cases hupd

/-- C10 witness: a concrete hard-delete request fails with the caught
`AttributeError` and leaves the store unchanged. -/
theorem C10_hard_delete_attribute_error_witness :
    delete_record c10Records 9 (some 1) true 50 =
      (.error "删除记录失败: AttributeError: hard_delete", c10Records) :=
  C10_hard_delete_attribute_error.2.1 c10Records 9 (some 1) 50
    (mkRec 9 (some 1) "task" "active" "medium" none 0 0 0) (by decide)

end LeanAiGtd
